import Mathlib

/-!
Shallow embedding of the djchat server application (Django/DRF backend).

The embedding covers the pieces the verification needs:

* the data model rows (`Category`, `Server`, `Channel`) from
  `server/models.py`, with foreign keys and the many-to-many membership
  rendered as plain identifiers and identifier lists;
* the listing endpoint `ServerListViewSet.list` from `server/views.py`,
  with Django querysets modelled as Lean lists of rows, queryset
  `filter`/slicing as list filtering/truncation, and Python exceptions
  (`AuthenticationFailed`, `ValidationError`, `ValueError`, `TypeError`,
  `Http404`) as an `Except` error type;
* the serializer `ServerSerializer` from `server/serializer.py`, producing
  a record whose optional `num_members` field models presence or absence
  of that key in the serialized output;
* the model save hooks `Server.save` and `Channel.save` from
  `server/models.py`.

Machine-level framework behavior that the source never reaches (database
cursors, HTTP transport) is outside the embedding; the queryset pipeline
itself is translated stage by stage from the source.
-/

namespace DjChat

/-- Row of the Category table (`server/models.py`, class `Category`):
id, name, optional description, optional icon file reference. -/
structure Category where
  id : Nat
  name : String
  description : Option String
  icon : Option String
deriving DecidableEq

/-- Row of the Server table (`server/models.py`, class `Server`):
id, name, owner foreign key, category foreign key, optional description,
many-to-many member set (user ids from the membership join table), and
optional banner and icon file references. -/
structure Server where
  id : Nat
  name : String
  owner : Nat
  category : Nat
  description : Option String
  member : List Nat
  banner : Option String
  icon : Option String
deriving DecidableEq

/-- Row of the Channel table (`server/models.py`, class `Channel`):
id, name, owner foreign key, topic, server foreign key. -/
structure Channel where
  id : Nat
  name : String
  owner : Nat
  topic : String
  server : Nat
deriving DecidableEq

/-- The relational store backing the app: the three entity tables. -/
structure DB where
  categories : List Category
  servers : List Server
  channels : List Channel
deriving DecidableEq

/-- The requesting identity as the view sees it (`request.user`):
whether the session is authenticated, and the user id. -/
structure RequestUser where
  isAuthenticated : Bool
  id : Nat
deriving DecidableEq

/-- Query parameters of the listing request (`request.query_params`).
Each is `none` when the key is absent from the query string and
`some v` when present with (string) value `v`. -/
structure QueryParams where
  category : Option String
  qty : Option String
  by_user : Option String
  by_serverid : Option String
  with_num_members : Option String
deriving DecidableEq

/-- A query with every parameter absent. -/
def QueryParams.empty : QueryParams :=
  { category := none, qty := none, by_user := none, by_serverid := none,
    with_num_members := none }

/-- Python-level failures surfaced by the view code: DRF
`AuthenticationFailed`, DRF `ValidationError` (with its detail message),
the builtin `ValueError` and `TypeError`, and `Http404` from
`get_object_or_404`. -/
inductive PyError where
  | authenticationFailed
  | validationError (detail : String)
  | valueError
  | typeError
  | http404
deriving DecidableEq

/-- Python truthiness of an optional query-parameter string:
`None` and the empty string are falsy, every other string is truthy. -/
def pyTruthy : Option String → Bool
  | none => false
  | some s => !(s == "")

/-- Value of a nonempty all-digit character list, read in base 10;
`none` when the list is empty or contains a non-digit. -/
def digitsToNat (l : List Char) : Option Nat :=
  if l.isEmpty then none
  else if l.all Char.isDigit then
    some (l.foldl (fun acc c => acc * 10 + (c.toNat - 48)) 0)
  else none

/-- Models the Python builtin `int` applied to a string: optional
surrounding spaces, an optional sign, then decimal digits; every other
shape raises `ValueError`, rendered here as `none`. -/
def pyInt (s : String) : Option Int :=
  let t := ((s.data.dropWhile (fun c => c == ' ')).reverse.dropWhile
    (fun c => c == ' ')).reverse
  match t with
  | '-' :: rest => (digitsToNat rest).map (fun n => -(n : Int))
  | '+' :: rest => (digitsToNat rest).map (fun n => (n : Int))
  | _ => (digitsToNat t).map (fun n => (n : Int))

/-- Name of the category a server row points to, resolved through the
category table (the ORM join behind `category__name`). -/
def categoryNameOf (db : DB) (s : Server) : Option String :=
  (db.categories.find? (fun c => c.id == s.category)).map Category.name

/-- Serialized server object produced by `ServerSerializer`
(`server/serializer.py`): the model fields except `member`, the embedded
`channel_server` list of channel rows, and `num_members`, whose `none`
value models the key being popped from the output dictionary. -/
structure SerializedServer where
  id : Nat
  name : String
  owner : Nat
  category : Nat
  description : Option String
  banner : Option String
  icon : Option String
  channel_server : List Channel
  num_members : Option Nat
deriving DecidableEq

/-- Embeds `ServerSerializer.to_representation`: all server fields except
the member list, the channels whose foreign key points at the server, and
the member count only when the `num_members` context flag was set (the
serializer pops the key otherwise). `Count("member")` counts distinct
join-table rows, hence the deduplicated length. -/
def serializeServer (db : DB) (withNumMembers : Bool) (s : Server) :
    SerializedServer :=
  { id := s.id, name := s.name, owner := s.owner, category := s.category,
    description := s.description, banner := s.banner, icon := s.icon,
    channel_server := db.channels.filter (fun ch => ch.server == s.id),
    num_members :=
      if withNumMembers then some s.member.dedup.length else none }

/-- Stage of `ServerListViewSet.list` at lines 110 to 111 of
`server/views.py`: when the category parameter is truthy, keep the servers
whose category name equals it (`filter(category__name=category)`). -/
def categoryStage (db : DB) (category : Option String) (qs : List Server) :
    List Server :=
  if pyTruthy category then
    qs.filter (fun s => categoryNameOf db s == some (category.getD ""))
  else qs

/-- Stage of `ServerListViewSet.list` at lines 114 to 120: when
`by_user` parsed to true, an authenticated caller narrows the set to the
servers whose membership contains the caller id (`filter(member=user_id)`)
and an unauthenticated caller raises `AuthenticationFailed`. -/
def byUserStage (user : RequestUser) (by_user : Bool) (qs : List Server) :
    Except PyError (List Server) :=
  if by_user then
    if by_user && user.isAuthenticated then
      Except.ok (qs.filter (fun s => s.member.contains user.id))
    else Except.error PyError.authenticationFailed
  else Except.ok qs

/-- Stage of `ServerListViewSet.list` at lines 127 to 128: when `qty` is
truthy, `int(qty)` either raises `ValueError` on a malformed string or
yields a bound for the slice `queryset[: int(qty)]`; a negative bound is
rejected by the query interface (Django refuses negative indexing with a
`ValueError`), a nonnegative bound keeps the first `qty` rows. -/
def qtyStage (qty : Option String) (qs : List Server) :
    Except PyError (List Server) :=
  if pyTruthy qty then
    match pyInt (qty.getD "") with
    | none => Except.error PyError.valueError
    | some n =>
      if n < 0 then Except.error PyError.valueError
      else Except.ok (qs.take n.toNat)
  else Except.ok qs

/-- Detail string of the `ValidationError` raised at lines 136 to 138 and
141 to 143 of `server/views.py`. -/
def invalidServerMsg (sid : String) : String :=
  "Server with ID " ++ sid ++ " does not exist"

/-- Stage of `ServerListViewSet.list` at lines 131 to 143: when
`by_serverid` is truthy, the code calls `filter(id=by_serverid)` on the
current queryset. If a slice was taken at line 128 (`sliced` is true),
the ORM refuses the call outright: Django raises
`TypeError("Cannot filter a query once a slice has been taken.")`, which
the `except ValueError` at line 139 does not catch, so it propagates
uncaught. On an unsliced queryset, `filter` converts the string to an
integer (a failed conversion raises `ValueError`, caught and re-raised
as `ValidationError` with the same detail) and keeps the rows with that
id; an empty result raises `ValidationError` naming the requested id. -/
def byServerIdStage (by_serverid : Option String) (sliced : Bool)
    (qs : List Server) : Except PyError (List Server) :=
  if pyTruthy by_serverid then
    if sliced then Except.error PyError.typeError
    else
      match pyInt (by_serverid.getD "") with
      | none =>
          Except.error
            (PyError.validationError (invalidServerMsg (by_serverid.getD "")))
      | some n =>
        if (qs.filter (fun s => ((s.id : Int) == n))).isEmpty then
          Except.error
            (PyError.validationError (invalidServerMsg (by_serverid.getD "")))
        else Except.ok (qs.filter (fun s => ((s.id : Int) == n)))
  else Except.ok qs

/-- Stages 1 and 2 of the pipeline: the category filter followed by the
membership filter, starting from the full server table. -/
def stage12 (db : DB) (user : RequestUser) (p : QueryParams) :
    Except PyError (List Server) :=
  byUserStage user (p.by_user == some "true")
    (categoryStage db p.category db.servers)

/-- Stages 1 to 3 of the pipeline: `stage12` followed by the quantity
truncation. The member-count annotation between them does not change
which rows are in the set. -/
def stage123 (db : DB) (user : RequestUser) (p : QueryParams) :
    Except PyError (List Server) :=
  match stage12 db user p with
  | Except.error e => Except.error e
  | Except.ok qs => qtyStage p.qty qs

/-- Row-level result of `ServerListViewSet.list`: the full filter
pipeline in source order (category, membership, truncation, id lookup)
before serialization. The queryset reaching the id lookup is sliced
exactly when the qty branch ran, that is when qty was truthy. -/
def serverListServers (db : DB) (user : RequestUser) (p : QueryParams) :
    Except PyError (List Server) :=
  match stage123 db user p with
  | Except.error e => Except.error e
  | Except.ok qs => byServerIdStage p.by_serverid (pyTruthy p.qty) qs

namespace ServerListViewSet

/-- Embeds `ServerListViewSet.list` (`server/views.py`, lines 98 to 150):
run the filter pipeline over the server table, then serialize each
surviving row, passing `with_num_members == "true"` as the serializer
context flag. -/
def list (db : DB) (user : RequestUser) (p : QueryParams) :
    Except PyError (List SerializedServer) :=
  match serverListServers db user p with
  | Except.error e => Except.error e
  | Except.ok qs =>
      Except.ok (qs.map
        (serializeServer db (p.with_num_members == some "true")))

end ServerListViewSet

/-- Embeds `Channel.save` (`server/models.py`, lines 159 to 161): the
name is lower-cased, then the row is persisted unchanged otherwise.
Python `str.lower` is modelled character-wise with `Char.toLower`. -/
def Channel.save (c : Channel) : Channel :=
  { c with name := String.mk (c.name.data.map Char.toLower) }

/-- Models `super(Category, self).save(...)` as written in `Server.save`
(`server/models.py`, line 124): Python requires the second argument of
`super` to be an instance of the first, a `Server` is not a `Category`,
so the call raises `TypeError` before anything is persisted. -/
def superCategorySaveOnServer : Except PyError Unit :=
  Except.error PyError.typeError

/-- Replacement of the row with id `s.id` by `s` in the server table (the
persistence a successful model save would perform). -/
def persistServer (store : List Server) (s : Server) : List Server :=
  store.map (fun t => if t.id == s.id then s else t)

/-- Embeds `Server.save` (`server/models.py`, lines 117 to 124) against a
server table: for a row with a truthy id, fetch the existing row
(`get_object_or_404`), delete the stored icon and banner files that
differ from the incoming ones, then run the `super` call. The first
component collects the file references deleted along the way; the second
is the outcome of the save. -/
def Server.save (store : List Server) (s : Server) :
    List String × Except PyError (List Server) :=
  if s.id ≠ 0 then
    match store.find? (fun t => t.id == s.id) with
    | none => ([], Except.error PyError.http404)
    | some existing =>
      let dels :=
        (if existing.icon ≠ s.icon then existing.icon.toList else []) ++
        (if existing.banner ≠ s.banner then existing.banner.toList else [])
      match superCategorySaveOnServer with
      | Except.error e => (dels, Except.error e)
      | Except.ok _ => (dels, Except.ok (persistServer store s))
  else
    match superCategorySaveOnServer with
    | Except.error e => ([], Except.error e)
    | Except.ok _ => ([], Except.ok (store ++ [s]))

end DjChat

namespace DjChat

section Fixtures

def srvA : Server :=
  { id := 1, name := "A", owner := 1, category := 1, description := none,
    member := [1], banner := none, icon := none }

def srvB : Server :=
  { id := 2, name := "B", owner := 1, category := 1, description := none,
    member := [], banner := none, icon := none }

def dbT : DB :=
  { categories := [{ id := 1, name := "gaming", description := none, icon := none }],
    servers := [srvA, srvB],
    channels := [] }

def anon : RequestUser := { isAuthenticated := false, id := 0 }

example : pyInt "12" = some 12 := by decide
example : pyInt "-3" = some (-3) := by decide
example : pyInt "x" = none := by decide
example : pyInt "" = none := by decide
example : pyInt " 4 " = some 4 := by decide

example : ServerListViewSet.list dbT anon QueryParams.empty =
    Except.ok [serializeServer dbT false srvA, serializeServer dbT false srvB] := by
  rfl

example : ServerListViewSet.list dbT anon { QueryParams.empty with qty := some "x" } =
    Except.error PyError.valueError := by rfl

example : ServerListViewSet.list dbT anon
    { QueryParams.empty with qty := some "1", by_serverid := some "2" } =
    Except.error PyError.typeError := by rfl

example : ServerListViewSet.list dbT anon
    { QueryParams.empty with by_serverid := some "2" } =
    Except.ok [serializeServer dbT false srvB] := by rfl

example : ServerListViewSet.list dbT anon { QueryParams.empty with by_user := some "true" } =
    Except.error PyError.authenticationFailed := by rfl

example : ServerListViewSet.list dbT { isAuthenticated := true, id := 1 }
    { QueryParams.empty with by_user := some "true" } =
    Except.ok [serializeServer dbT false srvA] := by rfl

example : ServerListViewSet.list dbT anon { QueryParams.empty with with_num_members := some "true" } =
    Except.ok [serializeServer dbT true srvA, serializeServer dbT true srvB] := by rfl

example : (serializeServer dbT true srvA).num_members = some 1 := by decide

example : ServerListViewSet.list dbT anon { QueryParams.empty with category := some "" } =
    ServerListViewSet.list dbT anon QueryParams.empty := by rfl

example : Channel.save { id := 1, name := "General", owner := 1, topic := "t", server := 1 } =
    { id := 1, name := "general", owner := 1, topic := "t", server := 1 } := by decide

def srvA2 : Server :=
  { id := 1, name := "A", owner := 1, category := 1, description := none,
    member := [1], banner := none, icon := some "new.png" }

example : Server.save dbT.servers srvA2 = ([], Except.error PyError.typeError) := by rfl

end Fixtures

end DjChat

namespace DjChat

/-! ### Helper lemmas about the pipeline stages -/

@[simp] theorem pyTruthy_none : pyTruthy none = false := rfl

@[simp] theorem pyTruthy_some_empty : pyTruthy (some "") = false := by decide

theorem pyTruthy_some_of_ne {s : String} (h : s ≠ "") :
    pyTruthy (some s) = true := by
  unfold pyTruthy
  simp [h]

theorem pyInt_empty : pyInt "" = none := by decide

theorem pyTruthy_of_pyInt_some {s : String} {n : Int} (h : pyInt s = some n) :
    pyTruthy (some s) = true := by
  apply pyTruthy_some_of_ne
  intro he
  rw [he, pyInt_empty] at h
  exact Option.noConfusion h

theorem byServerIdStage_ok_length {sid : Option String} {b : Bool}
    {qs r : List Server}
    (h : byServerIdStage sid b qs = Except.ok r) : r.length ≤ qs.length := by
  unfold byServerIdStage at h
  split at h
  · split at h
    · exact Except.noConfusion h
    · split at h
      · exact Except.noConfusion h
      · split at h
        · exact Except.noConfusion h
        · cases h
          exact List.length_filter_le _ _
  · cases h
    exact Nat.le_refl _

end DjChat

namespace DjChat

/-! ### Character lowering lemmas for the Channel name normalization -/

theorem uint32_le_iff_toNat_le (a b : UInt32) : a ≤ b ↔ a.toNat ≤ b.toNat := by
  simp [UInt32.le_def, BitVec.le_def, UInt32.toNat]

theorem toLower_eq_of (c : Char) (h : 65 ≤ c.toNat ∧ c.toNat ≤ 90) :
    Char.toLower c = Char.ofNat (c.toNat + 32) := by
  unfold Char.toLower
  exact if_pos h

theorem toLower_eq_self (c : Char) (h : ¬(65 ≤ c.toNat ∧ c.toNat ≤ 90)) :
    Char.toLower c = c := by
  unfold Char.toLower
  exact if_neg h

theorem char_toLower_not_upper (c : Char) :
    Char.isUpper (Char.toLower c) = false := by
  by_cases h : 65 ≤ c.toNat ∧ c.toNat ≤ 90
  · rw [toLower_eq_of c h]
    have hvalid : Char.isValidCharNat (Char.toNat c + 32) := by
      left
      unfold Char.toNat at h ⊢
      omega
    have hval : (Char.ofNat (Char.toNat c + 32)).val.toNat = Char.toNat c + 32 := by
      rw [Char.ofNat, dif_pos hvalid]
      rfl
    unfold Char.isUpper
    rw [Bool.and_eq_false_iff]
    right
    rw [decide_eq_false_iff_not]
    rw [uint32_le_iff_toNat_le]
    rw [hval]
    have h90 : UInt32.toNat 90 = 90 := rfl
    rw [h90]
    omega
  · rw [toLower_eq_self c h]
    unfold Char.isUpper
    rw [Bool.and_eq_false_iff]
    unfold Char.toNat at h
    rw [Decidable.not_and_iff_or_not] at h
    rcases h with h | h
    · left
      rw [decide_eq_false_iff_not, ge_iff_le]
      rw [uint32_le_iff_toNat_le]
      have h65 : UInt32.toNat 65 = 65 := rfl
      rw [h65]
      omega
    · right
      rw [decide_eq_false_iff_not]
      rw [uint32_le_iff_toNat_le]
      have h90 : UInt32.toNat 90 = 90 := rfl
      rw [h90]
      omega

theorem char_toLower_idem (c : Char) :
    Char.toLower (Char.toLower c) = Char.toLower c := by
  by_cases h : 65 ≤ c.toNat ∧ c.toNat ≤ 90
  · rw [toLower_eq_of c h]
    apply toLower_eq_self
    have hvalid : Char.isValidCharNat (Char.toNat c + 32) := by
      left
      unfold Char.toNat at h ⊢
      omega
    have hval : (Char.ofNat (Char.toNat c + 32)).val.toNat = Char.toNat c + 32 := by
      rw [Char.ofNat, dif_pos hvalid]
      rfl
    have htn : (Char.ofNat (Char.toNat c + 32)).toNat = Char.toNat c + 32 := hval
    rw [htn]
    omega
  · rw [toLower_eq_self c h, toLower_eq_self c h]

/-- C9: every Channel write persists the lower-cased form of the supplied
name, the persisted name contains no upper-case character, the
normalization is preserved by a subsequent write, and a channel written
with the name General reads back as general. -/
theorem channel_name_lowercased (c : Channel) :
    (Channel.save c).name = String.mk (c.name.data.map Char.toLower) ∧
    (∀ ch ∈ (Channel.save c).name.data, ch.isUpper = false) ∧
    Channel.save (Channel.save c) = Channel.save c ∧
    (Channel.save
      { id := 0, name := "General", owner := 0, topic := "", server := 0 }).name =
      "general" := by
  refine ⟨rfl, ?_, ?_, by decide⟩
  · intro ch hch
    have : (Channel.save c).name.data = c.name.data.map Char.toLower := rfl
    rw [this] at hch
    obtain ⟨a, _, ha⟩ := List.mem_map.mp hch
    rw [← ha]
    exact char_toLower_not_upper a
  · unfold Channel.save
    congr 1
    show String.mk ((c.name.data.map Char.toLower).map Char.toLower) =
      String.mk (c.name.data.map Char.toLower)
    congr 1
    rw [List.map_map]
    apply List.map_congr_left
    intro a _
    exact char_toLower_idem a

end DjChat

namespace DjChat

/-- C10: supplying category, qty, or by_serverid with an empty-string
value leaves the pipeline identical to the query with that parameter
omitted: no filter or truncation is applied and no error is raised. -/
theorem empty_string_params_treated_absent (db : DB) (user : RequestUser)
    (p : QueryParams) :
    ServerListViewSet.list db user { p with category := some "" } =
      ServerListViewSet.list db user { p with category := none } ∧
    ServerListViewSet.list db user { p with qty := some "" } =
      ServerListViewSet.list db user { p with qty := none } ∧
    ServerListViewSet.list db user { p with by_serverid := some "" } =
      ServerListViewSet.list db user { p with by_serverid := none } := by
  refine ⟨?_, ?_, ?_⟩
  · simp [ServerListViewSet.list, serverListServers, stage123, stage12,
      categoryStage, pyTruthy_some_empty, pyTruthy_none]
  · simp [ServerListViewSet.list, serverListServers, stage123, stage12,
      qtyStage, pyTruthy_some_empty, pyTruthy_none]
  · have h12 : stage12 db user { p with by_serverid := some "" } =
        stage12 db user { p with by_serverid := none } := rfl
    simp [ServerListViewSet.list, serverListServers, stage123, h12,
      byServerIdStage, pyTruthy_some_empty, pyTruthy_none]

end DjChat

namespace DjChat

/-- Stored server row holding an icon file, used to exercise the update
path of `Server.save`. -/
def srvStored : Server :=
  { id := 7, name := "S", owner := 1, category := 1, description := none,
    member := [], banner := none, icon := some "old.png" }

/-- The same row with a different icon reference, as submitted for an
update. -/
def srvUpdated : Server :=
  { id := 7, name := "S", owner := 1, category := 1, description := none,
    member := [], banner := none, icon := some "new.png" }

/-- C3 (code bug): on an update that changes the icon, `Server.save`
deletes the previously stored file and then fails with `TypeError`
instead of persisting, because line 124 of `server/models.py` calls
`super(Category, self).save` on a `Server` instance; no invocation of
`Server.save` ever completes successfully. -/
theorem server_save_raises_typeError :
    Server.save [srvStored] srvUpdated =
      (["old.png"], Except.error PyError.typeError) ∧
    ∀ (store : List Server) (s : Server) (l : List Server),
      (Server.save store s).2 ≠ Except.ok l := by
  refine ⟨rfl, ?_⟩
  intro store s l
  unfold Server.save
  split
  · cases hf : store.find? (fun t => t.id == s.id) with
    | none => simp
    | some existing => simp [hf, superCategorySaveOnServer]
  · simp [superCategorySaveOnServer]

end DjChat

namespace DjChat

/-- Query with only a malformed qty value. -/
def qpBadQty : QueryParams := { QueryParams.empty with qty := some "x" }

/-- C2 (counterexample): with qty present as the non-integer string x,
the listing operation raises `ValueError` rather than treating the value
permissively. -/
theorem malformed_qty_counterexample :
    ServerListViewSet.list dbT anon qpBadQty =
      Except.error PyError.valueError := by
  rfl

/-- C2 (amended): a present, non-empty qty that is not a syntactically
valid integer string makes the listing raise an uncaught `ValueError`
once the stages before it succeed; in contrast, any with_num_members
value other than the exact string true is treated as false, giving the
same outcome as omitting the parameter entirely. -/
theorem malformed_qty_raises (db : DB) (user : RequestUser)
    (p : QueryParams) (q : String) (qs2 : List Server)
    (h12 : stage12 db user p = Except.ok qs2)
    (hq : p.qty = some q) (hne : q ≠ "") (hbad : pyInt q = none) :
    ServerListViewSet.list db user p = Except.error PyError.valueError ∧
    ∀ (p' : QueryParams) (v : String), p'.with_num_members = some v →
      v ≠ "true" →
      ServerListViewSet.list db user p' =
        ServerListViewSet.list db user { p' with with_num_members := none } := by
  constructor
  · have hq3 : qtyStage p.qty qs2 = Except.error PyError.valueError := by
      unfold qtyStage
      rw [hq]
      rw [if_pos (pyTruthy_some_of_ne hne)]
      simp [hbad]
    unfold ServerListViewSet.list serverListServers stage123
    simp [h12, hq3]
  · intro p' v hv hvne
    have hflag : (p'.with_num_members == some "true") = false := by
      rw [hv]
      simp [hvne]
    have hflag2 : (({ p' with with_num_members := none } : QueryParams).with_num_members
        == some "true") = false := rfl
    have hpipe : serverListServers db user p' =
        serverListServers db user { p' with with_num_members := none } := rfl
    unfold ServerListViewSet.list
    rw [← hpipe, hflag, hflag2]

end DjChat

namespace DjChat

/-- C2 witness query exercising the permissive with_num_members branch. -/
def qpWNMx : QueryParams :=
  { QueryParams.empty with with_num_members := some "yes" }

/-- Witness for the amended C2 theorem at a concrete database and query. -/
theorem malformed_qty_raises_witness :
    ServerListViewSet.list dbT anon qpBadQty =
      Except.error PyError.valueError ∧
    ServerListViewSet.list dbT anon qpWNMx =
      ServerListViewSet.list dbT anon
        { qpWNMx with with_num_members := none } :=
  ⟨(malformed_qty_raises dbT anon qpBadQty "x" [srvA, srvB]
      rfl rfl (by decide) rfl).1,
   (malformed_qty_raises dbT anon qpBadQty "x" [srvA, srvB]
      rfl rfl (by decide) rfl).2 qpWNMx "yes" rfl (by decide)⟩

/-- C7 (counterexample): a query whose category parameter is present with
the empty-string value applies no filter, so a server whose category name
is gaming appears in the result even though gaming differs from the
requested value. -/
theorem category_filter_empty_counterexample :
    ServerListViewSet.list dbT anon
      { QueryParams.empty with category := some "" } =
      Except.ok [serializeServer dbT false srvA,
                 serializeServer dbT false srvB] ∧
    categoryNameOf dbT srvA = some "gaming" ∧ "gaming" ≠ "" := by
  refine ⟨rfl, rfl, by decide⟩

/-- C7 (amended): when the category parameter is present with a non-empty
value and is the only parameter supplied, a server appears in the result
exactly when its category name equals the value under case-sensitive
string equality; an empty category value applies no filter. -/
theorem category_filter_exact_nonempty (db : DB) (user : RequestUser)
    (v : String) (hv : v ≠ "") :
    serverListServers db user { QueryParams.empty with category := some v } =
      Except.ok (db.servers.filter
        (fun s => categoryNameOf db s == some v)) ∧
    ServerListViewSet.list db user
        { QueryParams.empty with category := some v } =
      Except.ok ((db.servers.filter
        (fun s => categoryNameOf db s == some v)).map
        (serializeServer db false)) ∧
    ∀ s ∈ db.servers,
      (s ∈ db.servers.filter (fun s => categoryNameOf db s == some v) ↔
        categoryNameOf db s = some v) := by
  have hcat : categoryStage db (some v) db.servers =
      db.servers.filter (fun s => categoryNameOf db s == some v) := by
    unfold categoryStage
    rw [if_pos (pyTruthy_some_of_ne hv)]
    rfl
  refine ⟨?_, ?_, ?_⟩
  · unfold serverListServers stage123 stage12
    simp [hcat, byUserStage, qtyStage, byServerIdStage, QueryParams.empty]
  · unfold ServerListViewSet.list serverListServers stage123 stage12
    simp [hcat, byUserStage, qtyStage, byServerIdStage, QueryParams.empty]
  · intro s hs
    rw [List.mem_filter]
    simp [hs]

/-- Witness for the amended C7 theorem at a concrete database and value. -/
theorem category_filter_exact_nonempty_witness :
    serverListServers dbT anon
        { QueryParams.empty with category := some "gaming" } =
      Except.ok (dbT.servers.filter
        (fun s => categoryNameOf dbT s == some "gaming")) ∧
    ServerListViewSet.list dbT anon
        { QueryParams.empty with category := some "gaming" } =
      Except.ok ((dbT.servers.filter
        (fun s => categoryNameOf dbT s == some "gaming")).map
        (serializeServer dbT false)) ∧
    ∀ s ∈ dbT.servers,
      (s ∈ dbT.servers.filter
          (fun s => categoryNameOf dbT s == some "gaming") ↔
        categoryNameOf dbT s = some "gaming") :=
  category_filter_exact_nonempty dbT anon "gaming" (by decide)

end DjChat

namespace DjChat

/-- C5: with by_user equal to the string true, an unauthenticated caller
makes the listing raise `AuthenticationFailed` and produce no result,
while an authenticated caller has the set narrowed to exactly the servers
whose membership contains the caller id; on a query whose only parameter
is by_user, the full listing returns precisely those servers. -/
theorem by_user_authentication_and_membership (db : DB)
    (user : RequestUser) (p : QueryParams) (qs : List Server)
    (hbu : p.by_user = some "true") :
    (user.isAuthenticated = false →
      ServerListViewSet.list db user p =
        Except.error PyError.authenticationFailed) ∧
    (user.isAuthenticated = true →
      byUserStage user true qs =
        Except.ok (qs.filter (fun s => s.member.contains user.id)) ∧
      (∀ s : Server,
        s ∈ qs.filter (fun s => s.member.contains user.id) ↔
          s ∈ qs ∧ user.id ∈ s.member) ∧
      ServerListViewSet.list db user
          { QueryParams.empty with by_user := some "true" } =
        Except.ok ((db.servers.filter
          (fun s => s.member.contains user.id)).map
          (serializeServer db false))) := by
  constructor
  · intro hauth
    unfold ServerListViewSet.list serverListServers stage123 stage12
    simp [hbu, byUserStage, hauth]
  · intro hauth
    refine ⟨?_, ?_, ?_⟩
    · simp [byUserStage, hauth]
    · intro s
      rw [List.mem_filter]
      simp [List.elem_iff]
    · unfold ServerListViewSet.list serverListServers stage123 stage12
      simp [byUserStage, hauth, categoryStage, qtyStage, byServerIdStage,
        QueryParams.empty]

end DjChat

namespace DjChat

/-- Authenticated request identity for the witnesses. -/
def uAuth : RequestUser := { isAuthenticated := true, id := 1 }

/-- Query whose only parameter is by_user equal to true. -/
def qpByUser : QueryParams := { QueryParams.empty with by_user := some "true" }

/-- Witness for the C5 theorem: the unauthenticated rejection and the
authenticated narrowing at a concrete database. -/
theorem by_user_authentication_and_membership_witness :
    ServerListViewSet.list dbT anon qpByUser =
      Except.error PyError.authenticationFailed ∧
    ServerListViewSet.list dbT uAuth qpByUser =
      Except.ok ((dbT.servers.filter
        (fun s => s.member.contains uAuth.id)).map
        (serializeServer dbT false)) :=
  ⟨(by_user_authentication_and_membership dbT anon qpByUser [] rfl).1 rfl,
   ((by_user_authentication_and_membership dbT uAuth qpByUser [] rfl).2
      rfl).2.2⟩

end DjChat

namespace DjChat

/-- Truncation result of the qty stage when the parameter parses to the
natural number `n`. -/
theorem qtyStage_some_nat {q : String} {n : Nat} {qs : List Server}
    (hqn : pyInt q = some (n : Int)) :
    qtyStage (some q) qs = Except.ok (qs.take n) := by
  unfold qtyStage
  rw [if_pos (pyTruthy_of_pyInt_some hqn)]
  simp only [Option.getD_some, hqn]
  rw [if_neg (Int.not_lt.mpr (Int.natCast_nonneg n))]
  rw [Int.toNat_natCast]

/-- Not-found outcome of the by_serverid stage on an unsliced queryset:
a parseable id matching no row in the incoming set yields the validation
error naming it. -/
theorem byServerIdStage_not_found {sid : String} {i : Int}
    {qs : List Server} (hne : sid ≠ "") (hi : pyInt sid = some i)
    (hno : ∀ s ∈ qs, ¬((s.id : Int) = i)) :
    byServerIdStage (some sid) false qs =
      Except.error (PyError.validationError (invalidServerMsg sid)) := by
  unfold byServerIdStage
  rw [if_pos (pyTruthy_some_of_ne hne)]
  rw [if_neg Bool.false_ne_true]
  simp only [Option.getD_some, hi]
  rw [if_pos]
  rw [List.isEmpty_iff, List.filter_eq_nil_iff]
  intro s hs
  simp only [beq_iff_eq]
  exact hno s hs

/-- Malformed-id outcome of the by_serverid stage on an unsliced
queryset: a string `int` cannot parse yields the same validation error
naming it. -/
theorem byServerIdStage_malformed {sid : String}
    {qs : List Server} (hne : sid ≠ "") (hnone : pyInt sid = none) :
    byServerIdStage (some sid) false qs =
      Except.error (PyError.validationError (invalidServerMsg sid)) := by
  unfold byServerIdStage
  rw [if_pos (pyTruthy_some_of_ne hne)]
  rw [if_neg Bool.false_ne_true]
  simp only [Option.getD_some, hnone]

/-- Refused filter on a sliced queryset: with by_serverid truthy and a
slice already taken, the ORM raises `TypeError` before looking at the
value, and the `except ValueError` does not catch it. -/
theorem byServerIdStage_sliced {sid : String} {qs : List Server}
    (hne : sid ≠ "") :
    byServerIdStage (some sid) true qs = Except.error PyError.typeError := by
  unfold byServerIdStage
  rw [if_pos (pyTruthy_some_of_ne hne)]
  rfl

/-- A parse success forces the parameter string to be nonempty. -/
theorem ne_empty_of_pyInt_some {s : String} {n : Int}
    (h : pyInt s = some n) : s ≠ "" := by
  intro he
  rw [he, pyInt_empty] at h
  exact Option.noConfusion h

end DjChat

namespace DjChat

/-- Equation form of `stage123` under a successful `stage12`. -/
theorem stage123_ok_of (db : DB) (user : RequestUser) (p : QueryParams)
    (qs : List Server) (h : stage12 db user p = Except.ok qs) :
    stage123 db user p = qtyStage p.qty qs := by
  unfold stage123
  rw [h]

/-- Equation form of `serverListServers` under a successful `stage123`. -/
theorem serverListServers_ok_of (db : DB) (user : RequestUser)
    (p : QueryParams) (qs : List Server)
    (h : stage123 db user p = Except.ok qs) :
    serverListServers db user p =
      byServerIdStage p.by_serverid (pyTruthy p.qty) qs := by
  unfold serverListServers
  rw [h]

/-- The listing serializes the rows of a successful pipeline run. -/
theorem list_ok_of (db : DB) (user : RequestUser) (p : QueryParams)
    (qs : List Server) (h : serverListServers db user p = Except.ok qs) :
    ServerListViewSet.list db user p =
      Except.ok (qs.map
        (serializeServer db (p.with_num_members == some "true"))) := by
  unfold ServerListViewSet.list
  rw [h]

/-- The listing propagates a pipeline error unchanged. -/
theorem list_error_of (db : DB) (user : RequestUser) (p : QueryParams)
    (e : PyError) (h : serverListServers db user p = Except.error e) :
    ServerListViewSet.list db user p = Except.error e := by
  unfold ServerListViewSet.list
  rw [h]

/-- C8: when qty parses to the positive integer `n`, a successful listing
never returns more than `n` objects; when additionally by_serverid is
absent, the result is exactly the first `n` rows surviving the earlier
stages, so its length is the minimum of `n` and the matched count. -/
theorem qty_bounds_result (db : DB) (user : RequestUser) (p : QueryParams)
    (q : String) (qs2 : List Server) (n : Nat)
    (h12 : stage12 db user p = Except.ok qs2)
    (hq : p.qty = some q) (hqn : pyInt q = some (n : Int)) (hpos : 0 < n) :
    (∀ l : List SerializedServer,
      ServerListViewSet.list db user p = Except.ok l → l.length ≤ n) ∧
    (p.by_serverid = none →
      ServerListViewSet.list db user p =
        Except.ok ((qs2.take n).map
          (serializeServer db (p.with_num_members == some "true"))) ∧
      ((qs2.take n).map
        (serializeServer db (p.with_num_members == some "true"))).length =
        min n qs2.length) := by
  have h123 : stage123 db user p = Except.ok (qs2.take n) := by
    rw [stage123_ok_of db user p qs2 h12, hq]
    exact qtyStage_some_nat hqn
  have hsrv : serverListServers db user p =
      byServerIdStage p.by_serverid (pyTruthy p.qty) (qs2.take n) :=
    serverListServers_ok_of db user p _ h123
  constructor
  · intro l hl
    cases hb : byServerIdStage p.by_serverid (pyTruthy p.qty) (qs2.take n) with
    | error e =>
      rw [list_error_of db user p e (by rw [hsrv]; exact hb)] at hl
      exact Except.noConfusion hl
    | ok r =>
      rw [list_ok_of db user p r (by rw [hsrv]; exact hb)] at hl
      injection hl with hl2
      rw [← hl2, List.length_map]
      calc r.length ≤ (qs2.take n).length := byServerIdStage_ok_length hb
        _ ≤ n := by
          rw [List.length_take]
          exact Nat.min_le_left _ _
  · intro hnone
    constructor
    · refine list_ok_of db user p _ ?_
      rw [hsrv, hnone]
      rfl
    · rw [List.length_map, List.length_take]

end DjChat

namespace DjChat

/-- Query whose only parameter is qty equal to 1. -/
def qpQty1 : QueryParams := { QueryParams.empty with qty := some "1" }

/-- Witness for the C8 theorem at a concrete database and query. -/
theorem qty_bounds_result_witness :
    ([serializeServer dbT false srvA] : List SerializedServer).length ≤ 1 ∧
    ServerListViewSet.list dbT anon qpQty1 =
      Except.ok ((([srvA, srvB] : List Server).take 1).map
        (serializeServer dbT (qpQty1.with_num_members == some "true"))) ∧
    ((([srvA, srvB] : List Server).take 1).map
      (serializeServer dbT (qpQty1.with_num_members == some "true"))).length =
      min 1 ([srvA, srvB] : List Server).length :=
  ⟨(qty_bounds_result dbT anon qpQty1 "1" [srvA, srvB] 1
      rfl rfl (by decide) (by decide)).1 [serializeServer dbT false srvA] rfl,
   ((qty_bounds_result dbT anon qpQty1 "1" [srvA, srvB] 1
      rfl rfl (by decide) (by decide)).2 rfl).1,
   ((qty_bounds_result dbT anon qpQty1 "1" [srvA, srvB] 1
      rfl rfl (by decide) (by decide)).2 rfl).2⟩

/-- C4: with by_serverid present and the earlier stages successful, an id
that parses but matches no row of the narrowed set fails with the
validation error naming the requested id, and an id that does not parse
as an integer fails with the very same validation error kind and message;
the message literally contains the offending value. The restriction to
an unapplied qty is forced by the sliced-queryset counterexample. -/
theorem by_serverid_validation_unsliced (db : DB) (user : RequestUser)
    (p : QueryParams) (qs3 : List Server) (sid : String)
    (h123 : stage123 db user p = Except.ok qs3)
    (hqty : pyTruthy p.qty = false)
    (hsid : p.by_serverid = some sid) (hne : sid ≠ "") :
    (∀ i : Int, pyInt sid = some i → (∀ s ∈ qs3, ¬((s.id : Int) = i)) →
      ServerListViewSet.list db user p =
        Except.error (PyError.validationError (invalidServerMsg sid))) ∧
    (pyInt sid = none →
      ServerListViewSet.list db user p =
        Except.error (PyError.validationError (invalidServerMsg sid))) ∧
    invalidServerMsg sid = "Server with ID " ++ sid ++ " does not exist" := by
  have hsrv : serverListServers db user p =
      byServerIdStage p.by_serverid (pyTruthy p.qty) qs3 :=
    serverListServers_ok_of db user p _ h123
  rw [hqty] at hsrv
  refine ⟨?_, ?_, rfl⟩
  · intro i hi hno
    refine list_error_of db user p _ ?_
    rw [hsrv, hsid]
    exact byServerIdStage_not_found hne hi hno
  · intro hnone
    refine list_error_of db user p _ ?_
    rw [hsrv, hsid]
    exact byServerIdStage_malformed hne hnone

/-- Query asking for the nonexistent server id 99. -/
def qp99 : QueryParams := { QueryParams.empty with by_serverid := some "99" }

/-- Query asking for the non-numeric server id abc. -/
def qpAbc : QueryParams :=
  { QueryParams.empty with by_serverid := some "abc" }

/-- Query combining qty equal to 1 with the nonexistent server id 99. -/
def qpQty1Sid99 : QueryParams :=
  { QueryParams.empty with qty := some "1", by_serverid := some "99" }

/-- C4 (counterexample): with the set already narrowed by qty, a
by_serverid value referring to no existing server makes the listing
raise the uncaught `TypeError` from filtering a sliced queryset, which
is not a validation error of any message. -/
theorem by_serverid_sliced_counterexample :
    ServerListViewSet.list dbT anon qpQty1Sid99 =
      Except.error PyError.typeError ∧
    (∀ s ∈ dbT.servers, s.id ≠ 99) ∧
    ∀ d : String, PyError.typeError ≠ PyError.validationError d :=
  ⟨rfl, by decide, fun d h => PyError.noConfusion h⟩

/-- Witness for the amended C4 theorem: the missing-id case, the
malformed-id case, and the error message naming the id, at a concrete
database. -/
theorem by_serverid_validation_unsliced_witness :
    ServerListViewSet.list dbT anon qp99 =
      Except.error (PyError.validationError (invalidServerMsg "99")) ∧
    ServerListViewSet.list dbT anon qpAbc =
      Except.error (PyError.validationError (invalidServerMsg "abc")) ∧
    invalidServerMsg "99" = "Server with ID 99 does not exist" :=
  ⟨(by_serverid_validation_unsliced dbT anon qp99 [srvA, srvB] "99"
      rfl rfl rfl (by decide)).1 99 (by decide) (by decide),
   (by_serverid_validation_unsliced dbT anon qpAbc [srvA, srvB] "abc"
      rfl rfl rfl (by decide)).2.1 (by decide),
   (by_serverid_validation_unsliced dbT anon qp99 [srvA, srvB] "99"
      rfl rfl rfl (by decide)).2.2⟩

/-- Query combining qty equal to 1 with by_serverid equal to 2. -/
def qpQtySid : QueryParams :=
  { QueryParams.empty with qty := some "1", by_serverid := some "2" }

/-- C1 (counterexample): server id 2 exists in the stored table yet
falls outside the first element kept by qty, and the listing raises the
uncaught `TypeError` from filtering the sliced queryset, not the
not-found validation error the claim asserts. -/
theorem qty_serverid_counterexample :
    ServerListViewSet.list dbT anon qpQtySid =
      Except.error PyError.typeError ∧
    (∃ s ∈ dbT.servers, s.id = 2) ∧
    (∀ s ∈ ([srvA, srvB] : List Server).take 1, s.id ≠ 2) ∧
    PyError.typeError ≠ PyError.validationError (invalidServerMsg "2") :=
  ⟨rfl, by decide, by decide, by decide⟩

/-- C1 (amended): when both qty and by_serverid are supplied, the
truncation runs first and leaves a sliced queryset, whose subsequent
`filter(id=...)` call the ORM refuses; so a server id that exists in the
stored table but not among the first `n` rows of the otherwise-filtered
ordering makes the listing raise an uncaught `TypeError` instead of
returning that server or the not-found validation error. -/
theorem qty_serverid_raises_typeError (db : DB) (user : RequestUser)
    (p : QueryParams) (qs2 : List Server) (q sid : String) (n i : Nat)
    (h12 : stage12 db user p = Except.ok qs2)
    (hq : p.qty = some q) (hqn : pyInt q = some (n : Int))
    (hsid : p.by_serverid = some sid) (hsi : pyInt sid = some (i : Int))
    (hex : ∃ s ∈ db.servers, s.id = i)
    (hnot : ∀ s ∈ qs2.take n, s.id ≠ i) :
    ServerListViewSet.list db user p = Except.error PyError.typeError := by
  have h123 : stage123 db user p = Except.ok (qs2.take n) := by
    rw [stage123_ok_of db user p qs2 h12, hq]
    exact qtyStage_some_nat hqn
  refine list_error_of db user p _ ?_
  rw [serverListServers_ok_of db user p _ h123, hsid, hq]
  rw [pyTruthy_of_pyInt_some hqn]
  exact byServerIdStage_sliced (ne_empty_of_pyInt_some hsi)

/-- Witness for the amended C1 theorem: the concrete qty-plus-serverid
query on the concrete database raises `TypeError`. -/
theorem qty_serverid_raises_typeError_witness :
    ServerListViewSet.list dbT anon qpQtySid =
      Except.error PyError.typeError :=
  qty_serverid_raises_typeError dbT anon qpQtySid [srvA, srvB] "1" "2"
    1 2 rfl rfl (by decide) rfl (by decide) (by decide) (by decide)

end DjChat
